import Mathlib

/-!
# Verification of the receipt-validator core (src/api/index.js)

Shallow embedding of the two core functions of the repository:

* `validateReceipt` — calls the production verification endpoint first and,
  exactly when the production status is 21007, retries the identical request
  body against the sandbox endpoint.  The outbound HTTPS transport
  (`makeAppleRequest` in the source) is modelled as an oracle of type `Net`:
  a function from endpoint URL and request payload to either a transport
  error message (`Except.error`, the promise rejection caught by the
  source's `try/catch`) or a parsed JSON response (`Except.ok`).  The
  embedding additionally returns the list of outbound calls made, in order,
  so that call-order and call-count invariants can be stated.

* `hasActiveSubscription` — the entitlement evaluator.  `Date.now()` is read
  once per call in the source; it is passed here as the explicit `now`
  argument.  JavaScript's `parseInt` applied to the `expires_date_ms` field
  (a string in Apple's JSON, possibly absent) is modelled by `parseIntOpt`,
  with `none` playing the role of `NaN`: every JavaScript comparison
  `NaN > now` is false, which the embedding mirrors by returning `false`
  on a `none` parse.

JSON objects are modelled as structures with `Option` fields for the fields
the code tests for presence.  The `status` field of a parsed response is
modelled as `Int` (the claims under verification all concern responses that
carry a numeric status).
-/

/-- Production verification endpoint URL (`PRODUCTION_URL` in the source). -/
def PRODUCTION_URL : String := "https://buy.itunes.apple.com/verifyReceipt"

/-- Sandbox verification endpoint URL (`SANDBOX_URL` in the source). -/
def SANDBOX_URL : String := "https://sandbox.itunes.apple.com/verifyReceipt"

/-- The hardcoded fallback shared secret from the source line
`process.env.APPLE_SHARED_SECRET || 'a374b8c7a3b346b5ab7bfc234e69924d'`. -/
def DEFAULT_SHARED_SECRET : String := "a374b8c7a3b346b5ab7bfc234e69924d"

/-- `SHARED_SECRET = process.env.APPLE_SHARED_SECRET || '<default>'`.
The environment variable is modelled as `Option String`; JavaScript `||`
falls back both when the variable is unset (`none`) and when it is set to
the empty string (the empty string is falsy). -/
def SHARED_SECRET (appleSharedSecretEnv : Option String) : String :=
  match appleSharedSecretEnv with
  | none => DEFAULT_SHARED_SECRET
  | some s => if s = "" then DEFAULT_SHARED_SECRET else s

/-- One entry of `latest_receipt_info` or `in_app`: a transaction record.
`expires_date_ms` is a string field in Apple's JSON and may be absent. -/
structure TransactionInfo where
  product_id : String
  expires_date_ms : Option String
  deriving DecidableEq, Repr

/-- The `receipt` object inside a parsed verification response.  Both
sequences are optional; the code tests each for presence before scanning. -/
structure ReceiptRecord where
  latest_receipt_info : Option (List TransactionInfo)
  in_app : Option (List TransactionInfo)
  deriving DecidableEq, Repr

/-- A parsed verification response from the provider: a numeric `status`
and an optional `receipt` object. -/
structure AppleResponse where
  status : Int
  receipt : Option ReceiptRecord
  deriving DecidableEq, Repr

/-- The JSON request body built at the top of `validateReceipt`:
`{'receipt-data': ..., 'password': ..., 'exclude-old-transactions': true}`. -/
structure Payload where
  receiptData : String
  password : String
  excludeOldTransactions : Bool
  deriving DecidableEq, Repr

/-- Builds the request body exactly as `validateReceipt` does. -/
def mkPayload (receiptData sharedSecret : String) : Payload :=
  { receiptData := receiptData
    password := sharedSecret
    excludeOldTransactions := true }

/-- A record of one outbound call made through `makeAppleRequest`. -/
structure ApiCall where
  url : String
  payload : Payload
  deriving DecidableEq, Repr

/-- The transport oracle standing for `makeAppleRequest`: given the endpoint
URL and the request payload it either rejects with a transport error message
(network error or unparseable response body) or resolves with a parsed
response. -/
def Net : Type := String → Payload → Except String AppleResponse

/-- The result object returned by `validateReceipt` in the source, modelled
field by field: `success`, `environment` (the strings `"production"`,
`"sandbox"`, `"unknown"`), the optional `error` message and the optional
`data` (the parsed provider response; absent only in the transport-failure
branch). -/
structure ValidationOutcome where
  success : Bool
  environment : String
  error : Option String
  data : Option AppleResponse
  deriving DecidableEq, Repr

/-- `validateReceipt(receiptData, sharedSecret)` from the source, with the
transport passed in as the oracle `net`.  Returns the outcome together with
the ordered list of outbound calls made.  The function is total: every
transport failure is caught and turned into a `success := false` outcome,
mirroring the source's `try/catch`. -/
def validateReceipt (net : Net) (receiptData : String) (sharedSecret : String) :
    ValidationOutcome × List ApiCall :=
  let payload := mkPayload receiptData sharedSecret
  match net PRODUCTION_URL payload with
  | .error e =>
      (⟨false, "unknown", some e, none⟩, [⟨PRODUCTION_URL, payload⟩])
  | .ok productionResult =>
      if productionResult.status = 0 then
        (⟨true, "production", none, some productionResult⟩,
          [⟨PRODUCTION_URL, payload⟩])
      else if productionResult.status = 21007 then
        match net SANDBOX_URL payload with
        | .error e =>
            (⟨false, "unknown", some e, none⟩,
              [⟨PRODUCTION_URL, payload⟩, ⟨SANDBOX_URL, payload⟩])
        | .ok sandboxResult =>
            if sandboxResult.status = 0 then
              (⟨true, "sandbox", none, some sandboxResult⟩,
                [⟨PRODUCTION_URL, payload⟩, ⟨SANDBOX_URL, payload⟩])
            else
              (⟨false, "sandbox",
                  some ("Sandbox validation failed with status: " ++
                    toString sandboxResult.status),
                  some sandboxResult⟩,
                [⟨PRODUCTION_URL, payload⟩, ⟨SANDBOX_URL, payload⟩])
      else
        (⟨false, "production",
            some ("Production validation failed with status: " ++
              toString productionResult.status),
            some productionResult⟩,
          [⟨PRODUCTION_URL, payload⟩])

/-- `validateReceipt(receiptData)` called without an explicit shared-secret
argument: the JavaScript default parameter supplies the module-level
`SHARED_SECRET` value derived from the environment variable. -/
def validateReceiptWithDefault (appleSharedSecretEnv : Option String)
    (net : Net) (receiptData : String) : ValidationOutcome × List ApiCall :=
  validateReceipt net receiptData (SHARED_SECRET appleSharedSecretEnv)

/-- The whitespace characters `parseInt` skips before parsing. -/
def jsWhitespace (c : Char) : Bool :=
  c = ' ' || c = '\t' || c = '\n' || c = '\r'

/-- Value of a list of decimal-digit characters. -/
def digitsVal (ds : List Char) : Nat :=
  ds.foldl (fun acc c => acc * 10 + (c.toNat - 48)) 0

/-- JavaScript `parseInt(s)` in base 10: skip leading whitespace, accept an
optional sign, then consume the maximal run of leading decimal digits.  If
no digit is found the result is `NaN`, modelled as `none`.  (The `0x` hex
prefix corner of `parseInt` is irrelevant here: Apple's millisecond fields
are decimal digit strings, and every non-decimal input is only ever used
through its `NaN`-ness.) -/
def parseIntJS (s : String) : Option Int :=
  let cs := s.toList.dropWhile jsWhitespace
  let signedRest : Bool × List Char :=
    match cs with
    | '-' :: rest => (true, rest)
    | '+' :: rest => (false, rest)
    | _ => (false, cs)
  let ds := signedRest.2.takeWhile Char.isDigit
  if ds.isEmpty then none
  else some (if signedRest.1 then -(digitsVal ds : Int) else (digitsVal ds : Int))

/-- `parseInt(transaction.expires_date_ms)` where the field may be absent:
`parseInt(undefined)` is `parseInt("undefined")`, which is `NaN`. -/
def parseIntOpt : Option String → Option Int
  | none => none
  | some s => parseIntJS s

/-- The body of the `latest_receipt_info` loop for one transaction: the
product id matches and `parseInt(expires_date_ms) > now`.  A `NaN` expiry
(`none`) makes the comparison false, exactly as in JavaScript. -/
def subscriptionQualifies (productId : String) (now : Int)
    (transaction : TransactionInfo) : Bool :=
  transaction.product_id == productId &&
    match parseIntOpt transaction.expires_date_ms with
    | none => false
    | some expiresDate => expiresDate > now

/-- The `latest_receipt_info` scan: false when the sequence is absent,
otherwise true iff some transaction qualifies (the source returns on the
first qualifying transaction; `List.any` has the same value). -/
def latestReceiptActive (receipt : ReceiptRecord) (productId : String)
    (now : Int) : Bool :=
  match receipt.latest_receipt_info with
  | none => false
  | some transactions => transactions.any (subscriptionQualifies productId now)

/-- The `in_app` fallback scan: presence of any entry with the matching
product id suffices, with no expiry check. -/
def inAppFallback (receipt : ReceiptRecord) (productId : String) : Bool :=
  match receipt.in_app with
  | none => false
  | some purchases => purchases.any (fun purchase => purchase.product_id == productId)

/-- `hasActiveSubscription(validationResult, productId)` from the source,
with `Date.now()` passed as `now`.  The guard
`!validationResult.success || !validationResult.data.receipt` is modelled by
the `success` test followed by `data.bind (·.receipt)`: the source's
short-circuit `||` ensures `.data` is only dereferenced when `success` is
true, and every `success: true` outcome built by `validateReceipt` carries a
`data` field. -/
def hasActiveSubscription (validationResult : ValidationOutcome)
    (productId : String) (now : Int) : Bool :=
  if !validationResult.success then false
  else
    match validationResult.data.bind (fun d => d.receipt) with
    | none => false
    | some receipt =>
      if latestReceiptActive receipt productId now then true
      else inAppFallback receipt productId

/-!
## Concrete fixtures

Concrete transport oracles and outcomes used by the witness theorems.
-/

/-- Production answers with status 0 and a receipt holding one active-looking
subscription transaction. -/
def netProdOk : Net := fun _ _ =>
  .ok ⟨0, some ⟨some [⟨"com.app.monthly", some "2000"⟩], none⟩⟩

/-- Production answers 21007, sandbox answers 0. -/
def netSandboxOk : Net := fun url _ =>
  if url = SANDBOX_URL then .ok ⟨0, some ⟨none, none⟩⟩ else .ok ⟨21007, none⟩

/-- Production answers 21007, sandbox answers the nonzero status 21003. -/
def netSandboxFail : Net := fun url _ =>
  if url = SANDBOX_URL then .ok ⟨21003, none⟩ else .ok ⟨21007, none⟩

/-- Production answers the nonzero, non-21007 status 21000. -/
def netProdFail : Net := fun _ _ => .ok ⟨21000, none⟩

/-- The production call fails at the transport level. -/
def netProdDown : Net := fun _ _ => .error "Request failed: connection refused"

/-- Production answers 21007, then the sandbox call fails at the transport
level (here: unparseable response body). -/
def netSandboxDown : Net := fun url _ =>
  if url = SANDBOX_URL then .error "Failed to parse Apple response: Unexpected token"
  else .ok ⟨21007, none⟩

/-- A receipt with one subscription transaction expiring at 2000 ms and one
`in_app` entry for the same product. -/
def sampleReceipt : ReceiptRecord :=
  ⟨some [⟨"com.app.monthly", some "2000"⟩], some [⟨"com.app.monthly", none⟩]⟩

/-- A verified outcome carrying `sampleReceipt`. -/
def verifiedOutcome : ValidationOutcome :=
  ⟨true, "production", none, some ⟨0, some sampleReceipt⟩⟩

/-- A receipt whose subscription entries all have an absent or non-numeric
`expires_date_ms`, plus an `in_app` entry for the product. -/
def nanReceipt : ReceiptRecord :=
  ⟨some [⟨"com.app.monthly", none⟩, ⟨"com.app.monthly", some "soon"⟩],
    some [⟨"com.app.monthly", none⟩]⟩

/-- A verified outcome carrying `nanReceipt`. -/
def nanOutcome : ValidationOutcome :=
  ⟨true, "sandbox", none, some ⟨0, some nanReceipt⟩⟩

/-!
## Theorems for the claims
-/

/-- C1: if the production response has status 21007 and the sandbox response
has status 0, `validateReceipt` returns a verified outcome in the sandbox
environment carrying the sandbox-parsed response, having called production
first and then sandbox with the identical request body (same receipt data,
same shared secret, `exclude-old-transactions` true). -/
theorem validateReceipt_sandbox_fallback_verified
    (net : Net) (receiptData sharedSecret : String) (pr sr : AppleResponse)
    (hp : net PRODUCTION_URL (mkPayload receiptData sharedSecret) = .ok pr)
    (hps : pr.status = 21007)
    (hs : net SANDBOX_URL (mkPayload receiptData sharedSecret) = .ok sr)
    (hss : sr.status = 0) :
    (validateReceipt net receiptData sharedSecret).1 =
      ⟨true, "sandbox", none, some sr⟩ ∧
    (validateReceipt net receiptData sharedSecret).2 =
      [⟨PRODUCTION_URL, mkPayload receiptData sharedSecret⟩,
       ⟨SANDBOX_URL, mkPayload receiptData sharedSecret⟩] ∧
    mkPayload receiptData sharedSecret = ⟨receiptData, sharedSecret, true⟩ := by
  refine ⟨?_, ?_, rfl⟩ <;> simp [validateReceipt, hp, hps, hs, hss]

/-- C1 witness. -/
theorem validateReceipt_sandbox_fallback_verified_witness :
    (validateReceipt netSandboxOk "blob" "secret").1 =
      ⟨true, "sandbox", none, some ⟨0, some ⟨none, none⟩⟩⟩ ∧
    (validateReceipt netSandboxOk "blob" "secret").2 =
      [⟨PRODUCTION_URL, mkPayload "blob" "secret"⟩,
       ⟨SANDBOX_URL, mkPayload "blob" "secret"⟩] ∧
    mkPayload "blob" "secret" = ⟨"blob", "secret", true⟩ :=
  validateReceipt_sandbox_fallback_verified netSandboxOk "blob" "secret"
    ⟨21007, none⟩ ⟨0, some ⟨none, none⟩⟩ rfl rfl rfl rfl

/-- C2: if the production response has status 0, `validateReceipt` returns a
verified outcome in the production environment carrying the parsed response,
and exactly one outbound call (to production) is made. -/
theorem validateReceipt_production_verified
    (net : Net) (receiptData sharedSecret : String) (pr : AppleResponse)
    (hp : net PRODUCTION_URL (mkPayload receiptData sharedSecret) = .ok pr)
    (hps : pr.status = 0) :
    (validateReceipt net receiptData sharedSecret).1 =
      ⟨true, "production", none, some pr⟩ ∧
    (validateReceipt net receiptData sharedSecret).2 =
      [⟨PRODUCTION_URL, mkPayload receiptData sharedSecret⟩] := by
  constructor <;> simp [validateReceipt, hp, hps]

/-- C2 witness. -/
theorem validateReceipt_production_verified_witness :
    (validateReceipt netProdOk "blob" "secret").1 =
      ⟨true, "production", none,
        some ⟨0, some ⟨some [⟨"com.app.monthly", some "2000"⟩], none⟩⟩⟩ ∧
    (validateReceipt netProdOk "blob" "secret").2 =
      [⟨PRODUCTION_URL, mkPayload "blob" "secret"⟩] :=
  validateReceipt_production_verified netProdOk "blob" "secret"
    ⟨0, some ⟨some [⟨"com.app.monthly", some "2000"⟩], none⟩⟩ rfl rfl

/-- C3: if the production response has a nonzero status other than 21007,
`validateReceipt` returns a rejected outcome in the production environment
whose reason embeds the numeric status, and exactly one outbound call is
made — the sandbox endpoint is never contacted. -/
theorem validateReceipt_production_rejected_single_call
    (net : Net) (receiptData sharedSecret : String) (pr : AppleResponse)
    (hp : net PRODUCTION_URL (mkPayload receiptData sharedSecret) = .ok pr)
    (h0 : pr.status ≠ 0) (h21 : pr.status ≠ 21007) :
    (validateReceipt net receiptData sharedSecret).1 =
      ⟨false, "production",
        some ("Production validation failed with status: " ++ toString pr.status),
        some pr⟩ ∧
    (validateReceipt net receiptData sharedSecret).2 =
      [⟨PRODUCTION_URL, mkPayload receiptData sharedSecret⟩] := by
  constructor <;> simp [validateReceipt, hp, h0, h21]

/-- C3 witness. -/
theorem validateReceipt_production_rejected_single_call_witness :
    (validateReceipt netProdFail "blob" "secret").1 =
      ⟨false, "production",
        some ("Production validation failed with status: " ++ toString (21000 : Int)),
        some ⟨21000, none⟩⟩ ∧
    (validateReceipt netProdFail "blob" "secret").2 =
      [⟨PRODUCTION_URL, mkPayload "blob" "secret"⟩] :=
  validateReceipt_production_rejected_single_call netProdFail "blob" "secret"
    ⟨21000, none⟩ rfl (by decide) (by decide)

/-- C4 counterexample: with production status 21007 and sandbox status 21003
the code produces the reason `"Sandbox validation failed with status: 21003"`
(capital `S`, colon before the code), not the literal wording
`"sandbox validation failed with status 21003"` stated by the claim (with or
without a colon). -/
theorem sandbox_reason_wording_counterexample :
    (validateReceipt netSandboxFail "blob" "secret").1.success = false ∧
    (validateReceipt netSandboxFail "blob" "secret").1.environment = "sandbox" ∧
    (validateReceipt netSandboxFail "blob" "secret").1.error =
      some "Sandbox validation failed with status: 21003" ∧
    (validateReceipt netSandboxFail "blob" "secret").1.error ≠
      some "sandbox validation failed with status 21003" ∧
    (validateReceipt netSandboxFail "blob" "secret").1.error ≠
      some "sandbox validation failed with status: 21003" := by
  decide

/-- C4 (amended): if the production response has status 21007 and the sandbox
response has a nonzero status, `validateReceipt` returns a rejected outcome in
the sandbox environment whose reason is the string
`"Sandbox validation failed with status: <code>"` with the sandbox status
code embedded. -/
theorem validateReceipt_sandbox_rejected_reason
    (net : Net) (receiptData sharedSecret : String) (pr sr : AppleResponse)
    (hp : net PRODUCTION_URL (mkPayload receiptData sharedSecret) = .ok pr)
    (hps : pr.status = 21007)
    (hs : net SANDBOX_URL (mkPayload receiptData sharedSecret) = .ok sr)
    (hss : sr.status ≠ 0) :
    (validateReceipt net receiptData sharedSecret).1 =
      ⟨false, "sandbox",
        some ("Sandbox validation failed with status: " ++ toString sr.status),
        some sr⟩ ∧
    (validateReceipt net receiptData sharedSecret).2 =
      [⟨PRODUCTION_URL, mkPayload receiptData sharedSecret⟩,
       ⟨SANDBOX_URL, mkPayload receiptData sharedSecret⟩] := by
  constructor <;> simp [validateReceipt, hp, hps, hs, hss]

/-- C4 witness. -/
theorem validateReceipt_sandbox_rejected_reason_witness :
    (validateReceipt netSandboxFail "blob" "secret").1 =
      ⟨false, "sandbox",
        some ("Sandbox validation failed with status: " ++ toString (21003 : Int)),
        some ⟨21003, none⟩⟩ ∧
    (validateReceipt netSandboxFail "blob" "secret").2 =
      [⟨PRODUCTION_URL, mkPayload "blob" "secret"⟩,
       ⟨SANDBOX_URL, mkPayload "blob" "secret"⟩] :=
  validateReceipt_sandbox_rejected_reason netSandboxFail "blob" "secret"
    ⟨21007, none⟩ ⟨21003, none⟩ rfl rfl rfl (by decide)

/-- C5: a transport-level failure (network error or unparseable response
body) on either call yields a rejected outcome in the `"unknown"` environment
whose reason is the transport error message.  After a production transport
failure exactly one call has been made — no sandbox retry is attempted.  No
failure escapes as an uncaught fault: `validateReceipt` is total, every
transport rejection is caught and represented as data. -/
theorem validateReceipt_transport_failure_unknown
    (net : Net) (receiptData sharedSecret e : String) :
    (net PRODUCTION_URL (mkPayload receiptData sharedSecret) = .error e →
      (validateReceipt net receiptData sharedSecret).1 =
        ⟨false, "unknown", some e, none⟩ ∧
      (validateReceipt net receiptData sharedSecret).2 =
        [⟨PRODUCTION_URL, mkPayload receiptData sharedSecret⟩]) ∧
    (∀ pr : AppleResponse,
      net PRODUCTION_URL (mkPayload receiptData sharedSecret) = .ok pr →
      pr.status = 21007 →
      net SANDBOX_URL (mkPayload receiptData sharedSecret) = .error e →
      (validateReceipt net receiptData sharedSecret).1 =
        ⟨false, "unknown", some e, none⟩ ∧
      (validateReceipt net receiptData sharedSecret).2 =
        [⟨PRODUCTION_URL, mkPayload receiptData sharedSecret⟩,
         ⟨SANDBOX_URL, mkPayload receiptData sharedSecret⟩]) := by
  constructor
  · intro hp
    constructor <;> simp [validateReceipt, hp]
  · intro pr hp hps hserr
    constructor <;> simp [validateReceipt, hp, hps, hserr]

/-- C5 witness. -/
theorem validateReceipt_transport_failure_unknown_witness :
    ((validateReceipt netProdDown "blob" "secret").1 =
        ⟨false, "unknown", some "Request failed: connection refused", none⟩ ∧
      (validateReceipt netProdDown "blob" "secret").2 =
        [⟨PRODUCTION_URL, mkPayload "blob" "secret"⟩]) ∧
    ((validateReceipt netSandboxDown "blob" "secret").1 =
        ⟨false, "unknown",
          some "Failed to parse Apple response: Unexpected token", none⟩ ∧
      (validateReceipt netSandboxDown "blob" "secret").2 =
        [⟨PRODUCTION_URL, mkPayload "blob" "secret"⟩,
         ⟨SANDBOX_URL, mkPayload "blob" "secret"⟩]) :=
  ⟨(validateReceipt_transport_failure_unknown netProdDown "blob" "secret"
      "Request failed: connection refused").1 rfl,
   (validateReceipt_transport_failure_unknown netSandboxDown "blob" "secret"
      "Failed to parse Apple response: Unexpected token").2
      ⟨21007, none⟩ rfl rfl rfl⟩

/-- A rejected outcome, as built by the production-failure branch. -/
def rejectedOutcome : ValidationOutcome :=
  ⟨false, "production",
    some "Production validation failed with status: 21000", some ⟨21000, none⟩⟩

/-- A verified outcome whose response carries no receipt record. -/
def verifiedNoReceipt : ValidationOutcome :=
  ⟨true, "sandbox", none, some ⟨0, none⟩⟩

/-- C6: on a verified outcome carrying a receipt with a `latest_receipt_info`
sequence, `hasActiveSubscription` returns true whenever some transaction for
the target product has an expiry parsing strictly beyond `now`; and when
every matching transaction's parsed expiry is not strictly in the future,
the result is exactly the `in_app` fallback scan, which checks presence only
(no expiry check). -/
theorem hasActiveSubscription_entitlement_spec
    (o : ValidationOutcome) (productId : String) (now : Int)
    (d : AppleResponse) (r : ReceiptRecord) (txs : List TransactionInfo)
    (hs : o.success = true) (hd : o.data = some d) (hr : d.receipt = some r)
    (ht : r.latest_receipt_info = some txs) :
    ((∃ t ∈ txs, t.product_id = productId ∧
        ∃ v, parseIntOpt t.expires_date_ms = some v ∧ now < v) →
      hasActiveSubscription o productId now = true) ∧
    ((∀ t ∈ txs, t.product_id = productId →
        ∀ v, parseIntOpt t.expires_date_ms = some v → v ≤ now) →
      hasActiveSubscription o productId now = inAppFallback r productId) := by
  have hbind : o.data.bind (fun d2 => d2.receipt) = some r := by
    rw [hd]
    simpa using hr
  constructor
  · rintro ⟨t, htmem, hpid, v, hv, hlt⟩
    have hq : subscriptionQualifies productId now t = true := by
      simp only [subscriptionQualifies, hpid, hv, beq_self_eq_true, Bool.true_and,
        decide_eq_true_eq]
      exact hlt
    have hact : latestReceiptActive r productId now = true := by
      simp only [latestReceiptActive, ht, List.any_eq_true]
      exact ⟨t, htmem, hq⟩
    simp [hasActiveSubscription, hs, hbind, hact]
  · intro hall
    have hact : latestReceiptActive r productId now = false := by
      simp only [latestReceiptActive, ht, List.any_eq_false]
      intro t htmem
      by_cases hpid : t.product_id = productId
      · cases hv : parseIntOpt t.expires_date_ms with
        | none => simp [subscriptionQualifies, hv]
        | some v =>
          have hle : v ≤ now := hall t htmem hpid v hv
          simp only [subscriptionQualifies, hpid, hv, beq_self_eq_true, Bool.true_and,
            decide_eq_true_eq]
          omega
      · simp [subscriptionQualifies, hpid]
    simp [hasActiveSubscription, hs, hbind, hact]

/-- C6 witness: with a subscription expiring at 2000 ms the entitlement holds
at `now = 1000`; at `now = 3000` the result equals the `in_app` fallback,
which is true because an `in_app` entry for the product exists. -/
theorem hasActiveSubscription_entitlement_spec_witness :
    hasActiveSubscription verifiedOutcome "com.app.monthly" 1000 = true ∧
    hasActiveSubscription verifiedOutcome "com.app.monthly" 3000 =
      inAppFallback sampleReceipt "com.app.monthly" ∧
    inAppFallback sampleReceipt "com.app.monthly" = true := by
  refine ⟨?_, ?_, by decide⟩
  · exact (hasActiveSubscription_entitlement_spec verifiedOutcome "com.app.monthly"
      1000 ⟨0, some sampleReceipt⟩ sampleReceipt _ rfl rfl rfl rfl).1
      ⟨⟨"com.app.monthly", some "2000"⟩, by decide, rfl, 2000, by decide, by decide⟩
  · refine (hasActiveSubscription_entitlement_spec verifiedOutcome "com.app.monthly"
      3000 ⟨0, some sampleReceipt⟩ sampleReceipt _ rfl rfl rfl rfl).2 ?_
    intro t htmem hpid v hv
    have hteq : t = ⟨"com.app.monthly", some "2000"⟩ := by
      simpa using htmem
    subst hteq
    have h2 : parseIntOpt (some "2000") = some 2000 := by decide
    rw [h2] at hv
    have hveq : v = 2000 := by
      injection hv with h
      omega
    subst hveq
    decide

/-- C7: on any outcome that is not verified (`success` false), and on any
outcome whose receipt record is absent (no `data` or no `receipt` field),
`hasActiveSubscription` returns false regardless of the product id. -/
theorem hasActiveSubscription_not_verified_false
    (o : ValidationOutcome) (productId : String) (now : Int) :
    (o.success = false → hasActiveSubscription o productId now = false) ∧
    (o.data.bind (fun d => d.receipt) = none →
      hasActiveSubscription o productId now = false) := by
  constructor
  · intro h
    simp [hasActiveSubscription, h]
  · intro h
    by_cases hs : o.success
    · simp [hasActiveSubscription, hs, h]
    · simp [hasActiveSubscription, hs]

/-- C7 witness. -/
theorem hasActiveSubscription_not_verified_false_witness :
    hasActiveSubscription rejectedOutcome "com.app.monthly" 1000 = false ∧
    hasActiveSubscription verifiedNoReceipt "com.app.monthly" 1000 = false :=
  ⟨(hasActiveSubscription_not_verified_false rejectedOutcome
      "com.app.monthly" 1000).1 rfl,
   (hasActiveSubscription_not_verified_false verifiedNoReceipt
      "com.app.monthly" 1000).2 rfl⟩

/-- C8: the entitlement evaluator is a pure, deterministic function of the
outcome, the product id and the current time: two calls on equal inputs give
equal results, and — the inputs being immutable values in the embedding —
no call mutates its input. -/
theorem hasActiveSubscription_deterministic
    (o₁ o₂ : ValidationOutcome) (productId₁ productId₂ : String)
    (now₁ now₂ : Int)
    (ho : o₁ = o₂) (hp : productId₁ = productId₂) (hn : now₁ = now₂) :
    hasActiveSubscription o₁ productId₁ now₁ =
      hasActiveSubscription o₂ productId₂ now₂ := by
  subst ho hp hn
  rfl

/-- C8 witness. -/
theorem hasActiveSubscription_deterministic_witness :
    hasActiveSubscription verifiedOutcome "com.app.monthly" 1000 =
      hasActiveSubscription verifiedOutcome "com.app.monthly" 1000 :=
  hasActiveSubscription_deterministic verifiedOutcome verifiedOutcome
    "com.app.monthly" "com.app.monthly" 1000 1000 rfl rfl rfl

/-- C9: when every `latest_receipt_info` entry's `expires_date_ms` is absent
or non-numeric (`parseInt` gives `NaN`, modelled as `none`) no entry passes
the subscription check — the strict comparison against `now` is false and no
exception is raised — and the overall result is exactly the `in_app`
fallback scan, which such a product can still pass. -/
theorem hasActiveSubscription_nan_expiry_safe
    (o : ValidationOutcome) (productId : String) (now : Int)
    (d : AppleResponse) (r : ReceiptRecord) (txs : List TransactionInfo)
    (hs : o.success = true) (hd : o.data = some d) (hr : d.receipt = some r)
    (ht : r.latest_receipt_info = some txs)
    (hnan : ∀ t ∈ txs, parseIntOpt t.expires_date_ms = none) :
    (∀ t ∈ txs, subscriptionQualifies productId now t = false) ∧
    hasActiveSubscription o productId now = inAppFallback r productId := by
  have hq : ∀ t ∈ txs, subscriptionQualifies productId now t = false := by
    intro t htmem
    simp [subscriptionQualifies, hnan t htmem]
  refine ⟨hq, ?_⟩
  have hbind : o.data.bind (fun d2 => d2.receipt) = some r := by
    rw [hd]
    simpa using hr
  have hact : latestReceiptActive r productId now = false := by
    simp only [latestReceiptActive, ht, List.any_eq_false]
    intro t htmem
    simp [hq t htmem]
  simp [hasActiveSubscription, hs, hbind, hact]

/-- C9 witness: both a missing and a non-numeric `expires_date_ms` entry fail
the subscription check, yet the `in_app` fallback still grants entitlement. -/
theorem hasActiveSubscription_nan_expiry_safe_witness :
    subscriptionQualifies "com.app.monthly" 0 ⟨"com.app.monthly", none⟩ = false ∧
    hasActiveSubscription nanOutcome "com.app.monthly" 0 =
      inAppFallback nanReceipt "com.app.monthly" ∧
    inAppFallback nanReceipt "com.app.monthly" = true := by
  refine ⟨?_, ?_, by decide⟩
  · exact (hasActiveSubscription_nan_expiry_safe nanOutcome "com.app.monthly" 0
      ⟨0, some nanReceipt⟩ nanReceipt _ rfl rfl rfl rfl (by decide)).1
      ⟨"com.app.monthly", none⟩ (by decide)
  · exact (hasActiveSubscription_nan_expiry_safe nanOutcome "com.app.monthly" 0
      ⟨0, some nanReceipt⟩ nanReceipt _ rfl rfl rfl rfl (by decide)).2

/-- Every outbound call issued by `validateReceipt` carries the one request
body built at the top of the function. -/
theorem validateReceipt_calls_payload (net : Net)
    (receiptData sharedSecret : String) :
    ∀ c ∈ (validateReceipt net receiptData sharedSecret).2,
      c.payload = mkPayload receiptData sharedSecret := by
  intro c hc
  cases hnet : net PRODUCTION_URL (mkPayload receiptData sharedSecret) with
  | error e =>
    simp [validateReceipt, hnet] at hc
    simp [hc]
  | ok pr =>
    by_cases h0 : pr.status = 0
    · simp [validateReceipt, hnet, h0] at hc
      simp [hc]
    · by_cases h21 : pr.status = 21007
      · cases hnet2 : net SANDBOX_URL (mkPayload receiptData sharedSecret) with
        | error e =>
          simp [validateReceipt, hnet, h0, h21, hnet2] at hc
          rcases hc with hc | hc <;> simp [hc]
        | ok sr =>
          by_cases hs0 : sr.status = 0
          · simp [validateReceipt, hnet, h0, h21, hnet2, hs0] at hc
            rcases hc with hc | hc <;> simp [hc]
          · simp [validateReceipt, hnet, h0, h21, hnet2, hs0] at hc
            rcases hc with hc | hc <;> simp [hc]
      · simp [validateReceipt, hnet, h0, h21] at hc
        simp [hc]

/-- C10: with no explicit shared-secret argument and the
`APPLE_SHARED_SECRET` environment variable unset, every request body sent by
`validateReceipt` carries the non-empty hardcoded default secret as its
`password` field — the secret is never absent from the request body. -/
theorem validateReceiptWithDefault_secret_present (net : Net)
    (receiptData : String) :
    DEFAULT_SHARED_SECRET ≠ "" ∧
    SHARED_SECRET none = DEFAULT_SHARED_SECRET ∧
    ∀ c ∈ (validateReceiptWithDefault none net receiptData).2,
      c.payload.password = DEFAULT_SHARED_SECRET := by
  refine ⟨by decide, rfl, ?_⟩
  intro c hc
  have h := validateReceipt_calls_payload net receiptData (SHARED_SECRET none) c hc
  rw [h]
  rfl

/-- C10 witness. -/
theorem validateReceiptWithDefault_secret_present_witness :
    DEFAULT_SHARED_SECRET ≠ "" ∧
    (⟨PRODUCTION_URL, mkPayload "blob" DEFAULT_SHARED_SECRET⟩ : ApiCall).payload.password
      = DEFAULT_SHARED_SECRET :=
  ⟨(validateReceiptWithDefault_secret_present netProdFail "blob").1,
   (validateReceiptWithDefault_secret_present netProdFail "blob").2.2
     ⟨PRODUCTION_URL, mkPayload "blob" DEFAULT_SHARED_SECRET⟩ (by decide)⟩
